import Mathlib

/-!
Verification development for the single-file program
`src/Scripts/ollama-embed.py`: a CLI wrapper that POSTs a text to an
embedding HTTP service and prints the first returned embedding vector
as JSON.

The embedding is shallow:
* JSON values are the inductive `Json`.  JSON numbers are kept as their
  decimal source text (the string the parser consumed, or the string the
  serializer would print); this matches the observable round-trip of
  CPython `json.loads`/`json.dumps` on canonically printed floats such
  as `0.1`, which is all the program ever observes or emits.
* `dumps` mirrors `json.dumps` with its default separators and
  `ensure_ascii=True`; `loads` mirrors `json.loads` (a fuel-indexed
  recursive-descent parser; the fuel chosen in `loads` is enough for any
  input, and universal claims only assume `loads body = .ok j`).
* The HTTP layer is an oracle `Service : HttpRequest -> Except String String`
  standing for `urllib.request.urlopen`: it either raises (the `error`
  message is the exception text) or yields the response body decoded as
  UTF-8.  `HttpRequest` records everything the source passes to
  `urllib.request.Request` plus the `timeout=60` given to `urlopen`.
* `embedRun` additionally returns the list of HTTP requests issued, so
  that claims about "exactly one request" / "no request" are statable.
* `mainProg` is the `if __name__ == "__main__":` block; `ProcResult`
  records the lines printed to stdout and stderr, the exit status, and
  the requests issued.
-/

/-- JSON values as produced by `json.loads`.  Numbers carry their decimal
source text (see the file header for why this is faithful here). -/
inductive Json where
  | null : Json
  | bool : Bool → Json
  | num : String → Json
  | str : String → Json
  | arr : List Json → Json
  | obj : List (String × Json) → Json

/-- lowercase hex digit, as CPython json emits in \uXXXX escapes. -/
def hexDigit (n : Nat) : Char :=
  if n < 10 then Char.ofNat (48 + n) else Char.ofNat (87 + n)

/-- four lowercase hex digits of a value below 2^16. -/
def hex4 (n : Nat) : String :=
  String.mk [hexDigit (n / 4096 % 16), hexDigit (n / 256 % 16),
             hexDigit (n / 16 % 16), hexDigit (n % 16)]

/-- escape of one character inside a JSON string literal, as CPython
`json.dumps` with `ensure_ascii=True` does: printable ASCII other than
quote and backslash stays itself, the short escapes are used where they
exist, everything else becomes \uXXXX (a surrogate pair above the BMP). -/
def escChar (c : Char) : String :=
  if c = '"' then "\\\""
  else if c = '\\' then "\\\\"
  else if c = '\n' then "\\n"
  else if c = '\r' then "\\r"
  else if c = '\t' then "\\t"
  else if c = '\x08' then "\\b"
  else if c = '\x0c' then "\\f"
  else if c.toNat < 32 then "\\u" ++ hex4 c.toNat
  else if c.toNat < 127 then String.singleton c
  else if c.toNat < 65536 then "\\u" ++ hex4 c.toNat
  else
    "\\u" ++ hex4 (55296 + (c.toNat - 65536) / 1024) ++
    "\\u" ++ hex4 (56320 + (c.toNat - 65536) % 1024)

/-- JSON string literal for `s`, quotes included. -/
def encodeString (s : String) : String :=
  "\"" ++ String.join (s.toList.map escChar) ++ "\""

mutual

/-- Python `json.dumps` with the default separators (", " between items,
": " after a key) and `ensure_ascii=True`. -/
def dumps : Json → String
  | Json.null => "null"
  | Json.bool true => "true"
  | Json.bool false => "false"
  | Json.num s => s
  | Json.str s => encodeString s
  | Json.arr xs => "[" ++ dumpsItems xs ++ "]"
  | Json.obj kvs => "\x7b" ++ dumpsMembers kvs ++ "\x7d"

/-- items of a JSON array, joined by ", ". -/
def dumpsItems : List Json → String
  | [] => ""
  | [x] => dumps x
  | x :: y :: xs => dumps x ++ ", " ++ dumpsItems (y :: xs)

/-- members of a JSON object, joined by ", ". -/
def dumpsMembers : List (String × Json) → String
  | [] => ""
  | [(k, v)] => encodeString k ++ ": " ++ dumps v
  | (k, v) :: m :: kvs =>
      encodeString k ++ ": " ++ dumps v ++ ", " ++ dumpsMembers (m :: kvs)

end

/-- JSON whitespace. -/
def isWsChar (c : Char) : Bool :=
  c = ' ' || c = '\t' || c = '\n' || c = '\r'

/-- drop leading JSON whitespace. -/
def skipWs : List Char → List Char
  | [] => []
  | c :: cs => if isWsChar c then skipWs cs else c :: cs

/-- value of one hex digit, if it is one. -/
def hexVal (c : Char) : Option Nat :=
  if c.isDigit then some (c.toNat - 48)
  else if 97 ≤ c.toNat && c.toNat ≤ 102 then some (c.toNat - 87)
  else if 65 ≤ c.toNat && c.toNat ≤ 70 then some (c.toNat - 55)
  else none

/-- prepend a decoded character to a string-parse result. -/
def mapCons (d : Char) : Option (List Char × List Char) → Option (List Char × List Char)
  | some (out, rem) => some (d :: out, rem)
  | none => none

/-- body of a JSON string literal, after the opening quote: the decoded
characters and the rest of the input after the closing quote. -/
def parseStringBody : List Char → Option (List Char × List Char)
  | [] => none
  | '"' :: cs => some ([], cs)
  | '\\' :: '"' :: cs => mapCons '"' (parseStringBody cs)
  | '\\' :: '\\' :: cs => mapCons '\\' (parseStringBody cs)
  | '\\' :: '/' :: cs => mapCons '/' (parseStringBody cs)
  | '\\' :: 'b' :: cs => mapCons '\x08' (parseStringBody cs)
  | '\\' :: 'f' :: cs => mapCons '\x0c' (parseStringBody cs)
  | '\\' :: 'n' :: cs => mapCons '\n' (parseStringBody cs)
  | '\\' :: 'r' :: cs => mapCons '\r' (parseStringBody cs)
  | '\\' :: 't' :: cs => mapCons '\t' (parseStringBody cs)
  | '\\' :: 'u' :: h1 :: h2 :: h3 :: h4 :: cs =>
    (match hexVal h1, hexVal h2, hexVal h3, hexVal h4 with
     | some a, some b, some c, some d =>
         mapCons (Char.ofNat (((a * 16 + b) * 16 + c) * 16 + d)) (parseStringBody cs)
     | _, _, _, _ => none)
  | '\\' :: _ => none
  | c :: cs => mapCons c (parseStringBody cs)

/-- characters that may appear in a JSON number token. -/
def isNumChar (c : Char) : Bool :=
  c.isDigit || c = '-' || c = '+' || c = '.' || c = 'e' || c = 'E'

/-- longest leading run of number characters, and the rest. -/
def takeNum : List Char → List Char × List Char
  | [] => ([], [])
  | c :: cs =>
    if isNumChar c then
      let p := takeNum cs
      (c :: p.1, p.2)
    else ([], c :: cs)

mutual

/-- one JSON value (fuel-indexed recursive descent, mirroring
`json.loads`): the parsed value and the unconsumed rest. -/
def parseVal : Nat → List Char → Option (Json × List Char)
  | 0, _ => none
  | Nat.succ fuel, cs =>
    match skipWs cs with
    | [] => none
    | '"' :: cs2 =>
      (match parseStringBody cs2 with
       | some (out, rem) => some (Json.str (String.mk out), rem)
       | none => none)
    | '[' :: cs2 =>
      (match skipWs cs2 with
       | ']' :: cs3 => some (Json.arr [], cs3)
       | _ =>
         match parseItems fuel cs2 with
         | some (xs, rem) => some (Json.arr xs, rem)
         | none => none)
    | '\x7b' :: cs2 =>
      (match skipWs cs2 with
       | '\x7d' :: cs3 => some (Json.obj [], cs3)
       | _ =>
         match parseMembers fuel cs2 with
         | some (kvs, rem) => some (Json.obj kvs, rem)
         | none => none)
    | 't' :: 'r' :: 'u' :: 'e' :: cs2 => some (Json.bool true, cs2)
    | 'f' :: 'a' :: 'l' :: 's' :: 'e' :: cs2 => some (Json.bool false, cs2)
    | 'n' :: 'u' :: 'l' :: 'l' :: cs2 => some (Json.null, cs2)
    | c :: cs2 =>
      if c.isDigit || c = '-' then
        let p := takeNum (c :: cs2)
        some (Json.num (String.mk p.1), p.2)
      else none

/-- comma-separated JSON values up to and including a closing bracket. -/
def parseItems : Nat → List Char → Option (List Json × List Char)
  | 0, _ => none
  | Nat.succ fuel, cs =>
    match parseVal fuel cs with
    | none => none
    | some (x, rem) =>
      match skipWs rem with
      | ',' :: rem2 =>
        (match parseItems fuel rem2 with
         | some (xs, rem3) => some (x :: xs, rem3)
         | none => none)
      | ']' :: rem2 => some ([x], rem2)
      | _ => none

/-- comma-separated JSON object members up to and including a closing
brace. -/
def parseMembers : Nat → List Char → Option (List (String × Json) × List Char)
  | 0, _ => none
  | Nat.succ fuel, cs =>
    match skipWs cs with
    | '"' :: cs2 =>
      (match parseStringBody cs2 with
       | none => none
       | some (kout, rem) =>
         match skipWs rem with
         | ':' :: rem2 =>
           (match parseVal fuel rem2 with
            | none => none
            | some (v, rem3) =>
              match skipWs rem3 with
              | ',' :: rem4 =>
                (match parseMembers fuel rem4 with
                 | some (kvs, rem5) => some ((String.mk kout, v) :: kvs, rem5)
                 | none => none)
              | '\x7d' :: rem4 => some ([(String.mk kout, v)], rem4)
              | _ => none)
         | _ => none)
    | _ => none

end

/-- Python `json.loads`: parse a complete JSON document, rejecting trailing
garbage.  The fuel bound is enough for any input (each unit of fuel is
spent only after consuming at least one character of a composite). -/
def loads (s : String) : Except String Json :=
  match parseVal (2 * s.length + 4) s.toList with
  | some (j, rem) =>
    if (skipWs rem).isEmpty then Except.ok j
    else Except.error "Extra data"
  | none => Except.error "Expecting value"

/-- everything the source passes to `urllib.request.Request`, plus the
`timeout=60` it passes to `urlopen`.  `body` stands for the UTF-8 bytes
of the POST data (with `ensure_ascii=True` the serialized body is pure
ASCII, so the string and its bytes are in bijection). -/
structure HttpRequest where
  url : String
  body : String
  headers : List (String × String)
  method : String
  timeout : Nat

/-- the HTTP layer as an oracle, standing for `urllib.request.urlopen`
together with `response.read().decode`: either an exception message
(network error, timeout, non-2xx HTTPError, decode error, ...) or the
response body. -/
def Service : Type := HttpRequest → Except String String

/-- lookup in a `json.loads` object: a duplicated key keeps its last
occurrence, as a Python dict built in document order does. -/
def lookupLast (k : String) : List (String × Json) → Option Json
  | [] => none
  | (k2, v) :: rest =>
    match lookupLast k rest with
    | some v2 => some v2
    | none => if k2 = k then some v else none

/-- Python subscript `j[k]` with a string key: only a dict supports it
(`KeyError` when absent); every other JSON value raises `TypeError`. -/
def getItemStr (j : Json) (k : String) : Except String Json :=
  match j with
  | Json.obj kvs =>
    (match lookupLast k kvs with
     | some v => Except.ok v
     | none => Except.error ("KeyError: " ++ k))
  | _ => Except.error "TypeError: value is not subscriptable by a string"

/-- Python subscript `j[0]`: first element of a list (`IndexError` when
empty), first character of a string (as a 1-character string), `KeyError`
on a dict whose keys are strings, `TypeError` otherwise. -/
def getItemZero (j : Json) : Except String Json :=
  match j with
  | Json.arr [] => Except.error "list index out of range"
  | Json.arr (x :: _) => Except.ok x
  | Json.str s =>
    (match s.toList with
     | [] => Except.error "string index out of range"
     | c :: _ => Except.ok (Json.str (String.mk [c])))
  | Json.obj _ => Except.error "KeyError: 0"
  | _ => Except.error "TypeError: value is not subscriptable"

/-- the `urllib.request.Request` the source builds for a given `text`,
`model` and `base_url`:
url `f"{base_url}/api/embed"`, body
`json.dumps({"model": model, "input": text}).encode("utf-8")` (a Python
dict iterates in insertion order, so `model` precedes `input`), the one
Content-Type header, method POST; `urlopen` is called with timeout 60. -/
def mkRequest (text model base_url : String) : HttpRequest :=
  { url := base_url ++ "/api/embed"
    body := dumps (Json.obj [("model", Json.str model), ("input", Json.str text)])
    headers := [("Content-Type", "application/json")]
    method := "POST"
    timeout := 60 }

/-- what `embed` does to a successfully read response body:
`json.loads(...)` then `result["embeddings"][0]`. -/
def processBody (body : String) : Except String Json :=
  match loads body with
  | Except.error e => Except.error e
  | Except.ok result =>
    match getItemStr result "embeddings" with
    | Except.error e => Except.error e
    | Except.ok v => getItemZero v

/-- the `embed` function of the source, instrumented with the list of
HTTP requests it issues (the source performs exactly one `urlopen`
unconditionally). -/
def embedRun (text model base_url : String) (svc : Service) :
    Except String Json × List HttpRequest :=
  (match svc (mkRequest text model base_url) with
   | Except.error e => Except.error e
   | Except.ok body => processBody body,
   [mkRequest text model base_url])

/-- the call `embed(text, model, base_url)` as the caller sees it: the
returned value, or the exception that propagates. -/
def embed (text model base_url : String) (svc : Service) : Except String Json :=
  (embedRun text model base_url svc).1

/-- the usage line of the source. -/
def usageMsg : String := "Usage: ollama-embed.py <text>"

/-- observable outcome of one process run: lines printed to stdout and
stderr (each `print` call is one entry, without its newline), exit
status, and the HTTP requests issued. -/
structure ProcResult where
  stdoutLines : List String
  stderrLines : List String
  exitCode : Nat
  requests : List HttpRequest

/-- the `try`/`except` around `embed` in `__main__`: on success print
`json.dumps(embedding)` to stdout and exit 0; on any exception print
`f"Error: {e}"` to stderr and exit 1. -/
def handleResult (r : Except String Json) (reqs : List HttpRequest) : ProcResult :=
  match r with
  | Except.ok j => ⟨[dumps j], [], 0, reqs⟩
  | Except.error e => ⟨[], ["Error: " ++ e], 1, reqs⟩

/-- the `if __name__ == "__main__":` block.  `argv` is `sys.argv`, the
script name included.  With fewer than two entries: usage to stderr,
exit 1, no request.  Otherwise `text = sys.argv[1]` and the guarded call
to `embed` with its defaults. -/
def mainProg (argv : List String) (svc : Service) : ProcResult :=
  if argv.length < 2 then
    ⟨[], [usageMsg], 1, []⟩
  else
    handleResult
      (embedRun (argv.getD 1 "") "mxbai-embed-large" "http://localhost:11434" svc).1
      (embedRun (argv.getD 1 "") "mxbai-embed-large" "http://localhost:11434" svc).2

/-- mock service of the spec test: given the request carrying text
"hello" it answers with body \x7b"embeddings": [[0.1, 0.2, 0.3]]\x7d. -/
def svcHello : Service := fun req =>
  if req.body = "\x7b\"model\": \"mxbai-embed-large\", \"input\": \"hello\"\x7d" then
    Except.ok "\x7b\"embeddings\": [[0.1, 0.2, 0.3]]\x7d"
  else
    Except.error "unexpected request"

/-- service that always fails (a network error, say). -/
def svcFail : Service := fun _ => Except.error "boom"

/-- service answering with two embeddings; only the first should be used. -/
def svcTwo : Service := fun _ =>
  Except.ok "\x7b\"embeddings\": [[1.5], [2.5]]\x7d"

/-- service answering with an empty embeddings array. -/
def svcEmpty : Service := fun _ => Except.ok "\x7b\"embeddings\": []\x7d"

/-- service whose embeddings[0] is a string, not a vector. -/
def svcStr : Service := fun _ => Except.ok "\x7b\"embeddings\": [\"oops\"]\x7d"

/-- service whose embeddings[0] is an empty array. -/
def svcEmptyVec : Service := fun _ => Except.ok "\x7b\"embeddings\": [[]]\x7d"

/-- service whose response lacks the embeddings key. -/
def svcNoKey : Service := fun _ => Except.ok "\x7b\"vectors\": [[1.0]]\x7d"

/-- helper: with at least two arguments, the entry point is the guarded
call to `embed` on `sys.argv[1]` with the default model and base url. -/
theorem mainProg_cons (prog t : String) (rest : List String) (svc : Service) :
    mainProg (prog :: t :: rest) svc =
      handleResult (embed t "mxbai-embed-large" "http://localhost:11434" svc)
        [mkRequest t "mxbai-embed-large" "http://localhost:11434"] := rfl

/-- helper: whenever the guarded call exits 1, it printed nothing to
stdout. -/
theorem handleResult_stdout_of_exit (r : Except String Json) (reqs : List HttpRequest)
    (h : (handleResult r reqs).exitCode = 1) :
    (handleResult r reqs).stdoutLines = [] := by
  cases r with
  | ok j => exact absurd h (by simp [handleResult])
  | error e => rfl

/-- Claim C1: for a service that, given text "hello", responds with body
\x7b"embeddings": [[0.1, 0.2, 0.3]]\x7d, invoking the CLI with argument
"hello" prints exactly [0.1, 0.2, 0.3] as a JSON array to standard
output and the process exits with status 0. -/
theorem c1_cli_hello_prints_vector :
    mainProg ["ollama-embed.py", "hello"] svcHello =
      ⟨["[0.1, 0.2, 0.3]"], [], 0,
       [mkRequest "hello" "mxbai-embed-large" "http://localhost:11434"]⟩ := rfl

/-- Claim C2: for every input text t, the request body is the UTF-8 JSON
serialization of the object with exactly the two fields model (default
"mxbai-embed-large") and input = t; for t = "x" that body is exactly
\x7b"model": "mxbai-embed-large", "input": "x"\x7d. -/
theorem c2_request_body (t : String) :
    (mkRequest t "mxbai-embed-large" "http://localhost:11434").body =
      dumps (Json.obj [("model", Json.str "mxbai-embed-large"), ("input", Json.str t)]) ∧
    (mkRequest "x" "mxbai-embed-large" "http://localhost:11434").body =
      "\x7b\"model\": \"mxbai-embed-large\", \"input\": \"x\"\x7d" :=
  ⟨rfl, rfl⟩

/-- Claim C3: every failure of `embed` (whatever exception message e it
carries) is caught at top level: the CLI prints "Error: e" to standard
error, exits with status 1, and nothing escapes uncaught. -/
theorem c3_errors_caught (prog t : String) (rest : List String) (svc : Service) (e : String)
    (h : embed t "mxbai-embed-large" "http://localhost:11434" svc = Except.error e) :
    mainProg (prog :: t :: rest) svc =
      ⟨[], ["Error: " ++ e], 1,
       [mkRequest t "mxbai-embed-large" "http://localhost:11434"]⟩ := by
  rw [mainProg_cons, h]
  rfl

theorem c3_errors_caught_witness :
    embed "hi" "mxbai-embed-large" "http://localhost:11434" svcFail = Except.error "boom" ∧
    mainProg ["ollama-embed.py", "hi"] svcFail =
      ⟨[], ["Error: boom"], 1,
       [mkRequest "hi" "mxbai-embed-large" "http://localhost:11434"]⟩ :=
  ⟨rfl, c3_errors_caught "ollama-embed.py" "hi" [] svcFail "boom" rfl⟩

/-- Claim C4: invoked with no text argument, the program prints the usage
message to standard error and exits with status 1, sending no HTTP
request. -/
theorem c4_no_argument (argv : List String) (svc : Service) (h : argv.length < 2) :
    mainProg argv svc = ⟨[], [usageMsg], 1, []⟩ := by
  unfold mainProg
  rw [if_pos h]

theorem c4_no_argument_witness :
    (["ollama-embed.py"] : List String).length < 2 ∧
    mainProg ["ollama-embed.py"] svcHello = ⟨[], [usageMsg], 1, []⟩ :=
  ⟨by decide, c4_no_argument ["ollama-embed.py"] svcHello (by decide)⟩

/-- Claim C5: for every successfully parsed JSON response whose
embeddings array is non-empty, `embed` returns exactly its first
element, ignoring any further elements. -/
theorem c5_first_embedding (t m b body : String) (svc : Service) (j x : Json)
    (tail : List Json)
    (h1 : svc (mkRequest t m b) = Except.ok body)
    (h2 : loads body = Except.ok j)
    (h3 : getItemStr j "embeddings" = Except.ok (Json.arr (x :: tail))) :
    embed t m b svc = Except.ok x := by
  simp only [embed, embedRun, processBody, h1, h2, h3, getItemZero]

theorem c5_first_embedding_witness :
    embed "hi" "mxbai-embed-large" "http://localhost:11434" svcTwo =
      Except.ok (Json.arr [Json.num "1.5"]) :=
  c5_first_embedding "hi" "mxbai-embed-large" "http://localhost:11434"
    "\x7b\"embeddings\": [[1.5], [2.5]]\x7d" svcTwo
    (Json.obj [("embeddings",
      Json.arr [Json.arr [Json.num "1.5"], Json.arr [Json.num "2.5"]])])
    (Json.arr [Json.num "1.5"]) [Json.arr [Json.num "2.5"]]
    rfl rfl rfl

/-- Claim C6: for every base_url b, `embed` issues a single blocking POST
to b ++ "/api/embed" with the Content-Type: application/json header and a
60-second timeout; with the default base_url the URL is
http://localhost:11434/api/embed. -/
theorem c6_single_post_request (t m b : String) (svc : Service) :
    (embedRun t m b svc).2 = [mkRequest t m b] ∧
    (mkRequest t m b).url = b ++ "/api/embed" ∧
    (mkRequest t m b).method = "POST" ∧
    (mkRequest t m b).headers = [("Content-Type", "application/json")] ∧
    (mkRequest t m b).timeout = 60 ∧
    (mkRequest t "mxbai-embed-large" "http://localhost:11434").url =
      "http://localhost:11434/api/embed" :=
  ⟨rfl, rfl, rfl, rfl, rfl, rfl⟩

/-- Claim C7: when the parsed response has an embeddings key holding an
empty array, `embed` raises the unhandled index error of `[0]` — there
is no emptiness check and no distinct "empty response" error kind. -/
theorem c7_empty_embeddings_index_error (t m b body : String) (svc : Service) (j : Json)
    (h1 : svc (mkRequest t m b) = Except.ok body)
    (h2 : loads body = Except.ok j)
    (h3 : getItemStr j "embeddings" = Except.ok (Json.arr [])) :
    embed t m b svc = Except.error "list index out of range" := by
  simp only [embed, embedRun, processBody, h1, h2, h3, getItemZero]

theorem c7_empty_embeddings_witness :
    embed "hi" "mxbai-embed-large" "http://localhost:11434" svcEmpty =
      Except.error "list index out of range" :=
  c7_empty_embeddings_index_error "hi" "mxbai-embed-large" "http://localhost:11434"
    "\x7b\"embeddings\": []\x7d" svcEmpty
    (Json.obj [("embeddings", Json.arr [])])
    rfl rfl rfl

/-- Claim C8: only `sys.argv[1]` is used: any further arguments are
silently ignored, and the whole observable run (output, exit status and
request sent) is that of the two-argument invocation. -/
theorem c8_extra_args_ignored (prog t : String) (rest : List String) (svc : Service) :
    mainProg (prog :: t :: rest) svc = mainProg [prog, t] svc := rfl

/-- Claim C9: on every run that exits with status 1, nothing was written
to standard output. -/
theorem c9_failure_empty_stdout (argv : List String) (svc : Service)
    (h : (mainProg argv svc).exitCode = 1) :
    (mainProg argv svc).stdoutLines = [] := by
  by_cases hlen : argv.length < 2
  · unfold mainProg
    rw [if_pos hlen]
  · unfold mainProg at h ⊢
    rw [if_neg hlen] at h ⊢
    exact handleResult_stdout_of_exit _ _ h

theorem c9_failure_empty_stdout_witness :
    (mainProg ["ollama-embed.py"] svcHello).exitCode = 1 ∧
    (mainProg ["ollama-embed.py"] svcHello).stdoutLines = [] :=
  ⟨rfl, c9_failure_empty_stdout ["ollama-embed.py"] svcHello rfl⟩

/-- Claim C10: `embed` never validates the shape of embeddings[0]: a
service for which it is the string "oops" makes the CLI print "oops"
(JSON-serialized, so quoted) and exit 0, and one for which it is an
empty array makes the CLI print [] and exit 0. -/
theorem c10_no_shape_validation :
    mainProg ["ollama-embed.py", "hi"] svcStr =
      ⟨["\"oops\""], [], 0,
       [mkRequest "hi" "mxbai-embed-large" "http://localhost:11434"]⟩ ∧
    mainProg ["ollama-embed.py", "hi"] svcEmptyVec =
      ⟨["[]"], [], 0,
       [mkRequest "hi" "mxbai-embed-large" "http://localhost:11434"]⟩ :=
  ⟨rfl, rfl⟩
